import Mathlib

/-!
# Verification of the GoodLand lending-book calculation engine

Shallow embedding of the financial calculation engine
(`src/backend/src/utils/calculations.js` and the monthly cashflow route) in
Lean 4, together with proofs and refutations of the frozen specification
claims.

Modelling conventions:
* A JavaScript `Date` holding a calendar date at midnight is modelled as a
  civil-date triple `CivilDate` (year, month 1–12, day).  All date
  comparisons in the source compare timestamps; at midnight resolution this
  is exactly comparison of day numbers, provided by `toDays`.
* `Date.setMonth(m + 1)` is modelled by `addMonthJS`, including the
  JavaScript day-overflow normalisation (Jan 31 + 1 month = Mar 2/3, no
  clamping).  `setDate(getDate() - 1)` is modelled by `subDayJS`.
* JavaScript numbers are modelled as exact rationals `ℚ`.
* `Math.ceil((b - a) / 86400000)` on two midnight timestamps is the exact
  integer day difference `toDays b - toDays a`.
* `Math.round(x * 100) / 100` (round half towards +∞) is `jsRound2`.
* `while` loops are modelled as fuel-based recursion with a fuel bound that
  the source loop can never exhaust (each iteration advances the date by at
  least 27 days).
-/

namespace GoodLand

/-- Leap year test, as `new Date(y, 1, 29)` semantics / the Gregorian rule. -/
def isLeap (y : ℤ) : Prop := (y % 4 = 0 ∧ y % 100 ≠ 0) ∨ y % 400 = 0

instance (y : ℤ) : Decidable (isLeap y) := by unfold isLeap; infer_instance

/-- Days in month `m` of a non-leap year (months numbered 1–12). -/
def daysInMonthNL (m : ℤ) : ℤ :=
  if m = 2 then 28 else if m = 4 ∨ m = 6 ∨ m = 9 ∨ m = 11 then 30 else 31

/-- Days in month `m` of year `y`: the value of
`new Date(y, m, 0).getDate()` for `1 ≤ m ≤ 12`. -/
def daysInMonth (y m : ℤ) : ℤ :=
  if m = 2 ∧ isLeap y then 29 else daysInMonthNL m

/-- Cumulative days before month `m` in a non-leap year. -/
def cumDays (m : ℤ) : ℤ :=
  if m ≤ 1 then 0 else if m = 2 then 31 else if m = 3 then 59
  else if m = 4 then 90 else if m = 5 then 120 else if m = 6 then 151
  else if m = 7 then 181 else if m = 8 then 212 else if m = 9 then 243
  else if m = 10 then 273 else if m = 11 then 304 else 334

/-- Days in years `0, …, y - 1` of the proleptic Gregorian calendar
(day number 0 is 0000-01-01). -/
def daysBeforeYear (y : ℤ) : ℤ :=
  365 * y + (y + 3) / 4 - (y + 99) / 100 + (y + 399) / 400

/-- A calendar date at midnight (the only time-of-day the engine uses). -/
structure CivilDate where
  y : ℤ
  m : ℤ
  d : ℤ
  deriving DecidableEq, Repr

/-- The timestamp of a civil date, in whole days.  The formula is linear in
`d`, matching the JavaScript `Date` normalisation of out-of-range days. -/
def toDays (t : CivilDate) : ℤ :=
  daysBeforeYear t.y + cumDays t.m + (if 2 < t.m ∧ isLeap t.y then 1 else 0) + (t.d - 1)

/-- A date triple that denotes an actual calendar day. -/
def ValidDate (t : CivilDate) : Prop :=
  1 ≤ t.m ∧ t.m ≤ 12 ∧ 1 ≤ t.d ∧ t.d ≤ daysInMonth t.y t.m

instance (t : CivilDate) : Decidable (ValidDate t) := by unfold ValidDate; infer_instance

/-- The year of the calendar month following `(y, m)`, i.e. the year that
`setMonth(getMonth() + 1)` targets before day normalisation. -/
def nextY (y m : ℤ) : ℤ := if m = 12 then y + 1 else y

/-- The month of the calendar month following `(y, m)`. -/
def nextM (m : ℤ) : ℤ := if m = 12 then 1 else m + 1

/-- JavaScript `Date` day normalisation for a target month `(y, m)` with
`1 ≤ m ≤ 12` and a day that overflows by at most one month (the only case
the engine can produce: `d ≤ 31` against months of length `≥ 28`). -/
def mkDateJS (y m d : ℤ) : CivilDate :=
  if d ≤ daysInMonth y m then ⟨y, m, d⟩ else ⟨nextY y m, nextM m, d - daysInMonth y m⟩

/-- `date.setMonth(date.getMonth() + 1)`: same day-of-month against the next
calendar month, with JavaScript overflow into the month after when the next
month is shorter (no clamping). -/
def addMonthJS (t : CivilDate) : CivilDate :=
  mkDateJS (nextY t.y t.m) (nextM t.m) t.d

/-- `date.setDate(date.getDate() - 1)`: the previous calendar day
(`setDate(0)` is the last day of the previous month). -/
def subDayJS (t : CivilDate) : CivilDate :=
  if 1 < t.d then ⟨t.y, t.m, t.d - 1⟩
  else if t.m = 1 then ⟨t.y - 1, 12, daysInMonth (t.y - 1) 12⟩
  else ⟨t.y, t.m - 1, daysInMonth t.y (t.m - 1)⟩

/-! ## `calculateContractPeriod` (src/backend/src/utils/calculations.js, lines 2–35) -/

/-- Result record of `calculateContractPeriod`. -/
structure ContractPeriod where
  fullMonths : ℤ
  remainingDays : ℤ
  daysInLastMonth : ℤ
  totalDays : ℤ
  deriving DecidableEq, Repr

/-- The `while (currentDate < end)` month-walk of `calculateContractPeriod`:
`nextMonth = currentDate + 1 month (JS setMonth)`; if `nextMonth <= end` the
month is counted and the walk advances, otherwise it breaks.  Fuel-based:
each counted advance moves the date forward by at least 28 days, so the fuel
chosen by `calculateContractPeriod` is never exhausted. -/
def periodLoop : Nat → CivilDate → ℤ → ℤ × CivilDate
  | 0, c, _ => (0, c)
  | Nat.succ f, c, e =>
    if toDays c < e then
      if toDays (addMonthJS c) ≤ e then
        ((periodLoop f (addMonthJS c) e).1 + 1, (periodLoop f (addMonthJS c) e).2)
      else (0, c)
    else (0, c)

/-- `calculateContractPeriod(startDate, endDate)`.  `totalDays` and
`remainingDays` are `Math.ceil` of millisecond differences divided by one
day; on midnight timestamps this is the exact whole-day difference. -/
def calculateContractPeriod (startDate endDate : CivilDate) : ContractPeriod :=
  let e := toDays endDate
  let totalDays := e - toDays startDate
  let r := periodLoop (totalDays.toNat + 1) startDate e
  { fullMonths := r.1
    remainingDays := e - toDays r.2
    daysInLastMonth := daysInMonth r.2.y r.2.m
    totalDays := totalDays }

/-! ## `calculateUpfrontInterest` (calculations.js, lines 38–60) -/

/-- Result record of `calculateUpfrontInterest`. -/
structure UpfrontInterestResult where
  fullMonthsInterest : ℚ
  partialMonthInterest : ℚ
  totalInterest : ℚ
  period : ContractPeriod
  deriving DecidableEq, Repr

/-- `calculateUpfrontInterest(loanAmount, borrowerRate, startDate, endDate)`:
full months at `borrowerRate / 12` per month, plus a daily-prorated partial
month when `remainingDays > 0`. -/
def calculateUpfrontInterest (loanAmount borrowerRate : ℚ)
    (startDate endDate : CivilDate) : UpfrontInterestResult :=
  let period := calculateContractPeriod startDate endDate
  let monthlyRate := borrowerRate / 12
  let fullMonthsInterest := monthlyRate * (period.fullMonths : ℚ) * loanAmount
  let partialMonthInterest :=
    if 0 < period.remainingDays then
      (monthlyRate / (period.daysInLastMonth : ℚ)) * (period.remainingDays : ℚ) * loanAmount
    else 0
  { fullMonthsInterest := fullMonthsInterest
    partialMonthInterest := partialMonthInterest
    totalInterest := fullMonthsInterest + partialMonthInterest
    period := period }

/-! ## `getUpfrontInterestStatus` (calculations.js, lines 64–115)

The source returns a status string and, along the way, computes an
`isDebugging` flag that only gates `console.log` tracing.  The embedding
returns the pair (status, isDebugging); the route consumes only the
status. -/

/-- `getUpfrontInterestStatus` with the log-gating flag made explicit.
`projectId` is truthy in JS when non-null and non-zero; `repaymentDate` and
`expiryDate` are accepted but never read by the source body.  The implicit
`new Date()` wall clock is threaded as `currentDate`. -/
def getUpfrontInterestStatusFull (expectedInterest actualPaidAmount : ℚ)
    (contractStartDate : CivilDate) (projectId : Option ℤ)
    (repaymentDate expiryDate : CivilDate) (currentDate : CivilDate) :
    String × Bool :=
  let isDebugging := (match projectId with
    | none => false
    | some p => decide (p ≠ 0)) &&
    (decide (30000 < expectedInterest) || decide (0 < actualPaidAmount))
  if toDays currentDate < toDays contractStartDate then ("pending", isDebugging)
  else if actualPaidAmount = 0 then ("overdue", isDebugging)
  else if expectedInterest - expectedInterest * (1 / 100) ≤ actualPaidAmount then
    ("paid", isDebugging)
  else ("partial", isDebugging)

/-- The status string returned by `getUpfrontInterestStatus`. -/
def getUpfrontInterestStatus (expectedInterest actualPaidAmount : ℚ)
    (contractStartDate : CivilDate) (projectId : Option ℤ)
    (repaymentDate expiryDate : CivilDate) (currentDate : CivilDate) : String :=
  (getUpfrontInterestStatusFull expectedInterest actualPaidAmount contractStartDate
    projectId repaymentDate expiryDate currentDate).1

/-! ## `generatePaymentSchedule` (calculations.js, lines 131–160) -/

/-- One schedule advance: `setMonth(getMonth() + 1)` then
`setDate(getDate() - 1)` — "+1 month, −1 day". -/
def scheduleStep (t : CivilDate) : CivilDate := subDayJS (addMonthJS t)

/-- The `while` loop of `generatePaymentSchedule`: emit the current date
while it is within `endDate` and `predictionEndDate`, keeping only dates at
or after `now`, advancing by `scheduleStep`.  Fuel-based; the fuel chosen by
`generatePaymentSchedule` is never exhausted since every step advances the
date by at least 27 days. -/
def scheduleLoop : Nat → CivilDate → ℤ → ℤ → ℤ → List CivilDate
  | 0, _, _, _, _ => []
  | Nat.succ f, c, endD, predD, nowD =>
    if toDays c ≤ endD ∧ toDays c ≤ predD then
      (if nowD ≤ toDays c then [c] else []) ++ scheduleLoop f (scheduleStep c) endD predD nowD
    else []

/-- `generatePaymentSchedule(basePaymentDate, endDate, predictionEndDate,
hasLastPayment)` with the wall clock threaded as `now`.  When
`hasLastPayment` is set the anchor is first advanced one step ("next payment
= last payment + 1 month − 1 day"). -/
def generatePaymentSchedule (basePaymentDate endDate predictionEndDate : CivilDate)
    (hasLastPayment : Bool) (now : CivilDate) : List CivilDate :=
  let c0 := if hasLastPayment then scheduleStep basePaymentDate else basePaymentDate
  scheduleLoop ((min (toDays endDate) (toDays predictionEndDate) - toDays c0).toNat + 1)
    c0 (toDays endDate) (toDays predictionEndDate) (toDays now)

/-! ## Monetary rounding at the presentation boundary -/

/-- JavaScript `Math.round`: round half towards positive infinity. -/
def jsRound (x : ℚ) : ℤ := ⌊x + 1 / 2⌋

/-- `Math.round(x * 100) / 100`: round to 2 decimal places. -/
def jsRound2 (x : ℚ) : ℚ := (jsRound (x * 100) : ℚ) / 100

/-! ## Monthly cashflow route, `GET /monthly` (src/unnamed/part_005)

Embeddings of the per-loan-per-month gross interest computation (with the
final-month proration branch, lines 167–197), the gross/net/tax/fee ratio
guards (lines 199–202), and the investor payout loop (lines 249–275). -/

/-- The gross interest amount the projector books for one loan in one month,
given that the month has a scheduled borrower payment (lines 167–197):
the flat monthly amount, replaced in the loan's final month — when a
schedule date falls inside the month — by the daily-prorated amount
`loanAmount * (monthlyRate / daysInMonth) * actualDaysInMonth`, with
`actualDaysInMonth = min(ceil((loanEnd − monthStart) / 1 day), daysInMonth)`. -/
def monthlyGrossInterest (loanAmount borrowerMonthlyRate : ℚ)
    (loanEndDate monthStart monthEnd : CivilDate)
    (borrowerPaymentSchedule : List CivilDate) : ℚ :=
  let base := loanAmount * borrowerMonthlyRate
  if toDays monthStart ≤ toDays loanEndDate ∧ toDays loanEndDate ≤ toDays monthEnd then
    match borrowerPaymentSchedule.find? (fun p =>
      decide (toDays monthStart ≤ toDays p) && decide (toDays p ≤ toDays monthEnd)) with
    | some _ =>
      let daysInM := daysInMonth monthEnd.y monthEnd.m
      let actualDaysInMonth := min (toDays loanEndDate - toDays monthStart) daysInM
      loanAmount * (borrowerMonthlyRate / (daysInM : ℚ)) * (actualDaysInMonth : ℚ)
    | none => base
  else base

/-- JavaScript `x || 1` on a number that is `0` or positive: the
division-by-zero guard of the ratio computations. -/
def jsOrOne (x : ℚ) : ℚ := if x = 0 then 1 else x

/-- `loan.actualPaidNet / (loan.actualPaidGross || 1)` (line 200). -/
def grossToNetRatio (actualPaidNet actualPaidGross : ℚ) : ℚ :=
  actualPaidNet / jsOrOne actualPaidGross

/-- `loan.totalTaxPaid / (loan.actualPaidGross || 1)` (line 201). -/
def taxRatio (totalTaxPaid actualPaidGross : ℚ) : ℚ :=
  totalTaxPaid / jsOrOne actualPaidGross

/-- `loan.totalFeesPaid / (loan.actualPaidGross || 1)` (line 202). -/
def feeRatio (totalFeesPaid actualPaidGross : ℚ) : ℚ :=
  totalFeesPaid / jsOrOne actualPaidGross

/-! ### Investor payouts and the Goodland exclusion -/

/-- One row of the investor-funding query. -/
structure InvestorFunding where
  stage_id : ℤ
  investor_id : ℤ
  investor_rate : ℚ
  investment_amount : ℚ
  investor_start_date : CivilDate
  investor_end_date : CivilDate
  investor_name : Option String
  deriving DecidableEq, Repr

/-- One entry of a month's itemized `investorPayouts` list. -/
structure InvestorPayout where
  investorId : ℤ
  investorName : String
  stageId : ℤ
  amount : ℚ
  isGoodlandInvestor : Bool
  excludedFromOutflows : Bool
  deriving DecidableEq, Repr

/-- `String.prototype.toLowerCase` (ASCII, as the exclusion rule needs). -/
def jsToLower (s : String) : String := ⟨s.data.map Char.toLower⟩

def listStartsWith : List Char → List Char → Bool
  | [], _ => true
  | _ :: _, [] => false
  | a :: as, b :: bs => a == b && listStartsWith as bs

def listIncludes (sub : List Char) : List Char → Bool
  | [] => listStartsWith sub []
  | s :: rest => listStartsWith sub (s :: rest) || listIncludes sub rest

/-- `s.includes(sub)`: substring containment. -/
def jsIncludes (s sub : String) : Bool := listIncludes sub.data s.data

/-- `investor.investor_name || Investor ${investor.investor_id}` — the empty
string is falsy in JavaScript. -/
def investorDisplayName (inv : InvestorFunding) : String :=
  match inv.investor_name with
  | none => "Investor " ++ inv.investor_id.repr
  | some s => if s = "" then "Investor " ++ inv.investor_id.repr else s

/-- `investorName.toLowerCase().includes(goodland)` (line 259). -/
def isGoodlandName (name : String) : Bool := jsIncludes (jsToLower name) "goodland"

/-- `investment_amount * (investor_rate / 12)` (lines 255–256). -/
def investorMonthlyPayment (inv : InvestorFunding) : ℚ :=
  inv.investment_amount * (inv.investor_rate / 12)

/-- The investor payout loop for one projected month (lines 249–275):
returns the month's `totalInvestorPayouts` and the itemized
`investorPayouts` list.  A funding is active when
`investorStartDate <= monthEnd && investorEndDate >= monthStart`; a
Goodland-named investor is skipped in the total but still itemized. -/
def processInvestorPayouts :
    List InvestorFunding → CivilDate → CivilDate → ℚ × List InvestorPayout
  | [], _, _ => (0, [])
  | inv :: rest, monthStart, monthEnd =>
    if toDays inv.investor_start_date ≤ toDays monthEnd ∧
        toDays monthStart ≤ toDays inv.investor_end_date then
      ((if isGoodlandName (investorDisplayName inv) then 0
        else investorMonthlyPayment inv) +
          (processInvestorPayouts rest monthStart monthEnd).1,
        { investorId := inv.investor_id
          investorName := investorDisplayName inv
          stageId := inv.stage_id
          amount := investorMonthlyPayment inv
          isGoodlandInvestor := isGoodlandName (investorDisplayName inv)
          excludedFromOutflows := isGoodlandName (investorDisplayName inv) } ::
          (processInvestorPayouts rest monthStart monthEnd).2)
    else processInvestorPayouts rest monthStart monthEnd


/-! ## Calendar lemmas -/

theorem daysInMonth_bounds (y m : ℤ) :
    28 ≤ daysInMonth y m ∧ daysInMonth y m ≤ 31 := by
  unfold daysInMonth daysInMonthNL
  split_ifs <;> omega

theorem daysBeforeYear_succ (y : ℤ) :
    daysBeforeYear (y + 1) = daysBeforeYear y + (if isLeap y then 366 else 365) := by
  unfold daysBeforeYear
  split_ifs with h
  · rcases h with ⟨h4, h100⟩ | h400 <;> omega
  · unfold isLeap at h
    push_neg at h
    rcases Classical.em (y % 4 = 0) with h4 | h4
    · rcases Classical.em (y % 400 = 0) with h400 | h400
      · exact absurd h400 (by tauto)
      · have h100 : y % 100 = 0 := by tauto
        omega
    · have h400 : y % 400 ≠ 0 := by omega
      omega

/-- Month-successor additivity of the day-number formula, for every day
offset `d` (the formula is linear in `d`). -/
theorem toDays_nextYM (y m d : ℤ) (h1 : 1 ≤ m) (h2 : m ≤ 12) :
    toDays ⟨nextY y m, nextM m, d⟩ = toDays ⟨y, m, d⟩ + daysInMonth y m := by
  interval_cases m <;>
  · norm_num [nextY, nextM, toDays, cumDays, daysInMonth, daysInMonthNL]
    try rw [daysBeforeYear_succ]
    first
    | omega
    | (split_ifs <;> omega)

theorem nextM_bounds (m : ℤ) (h1 : 1 ≤ m) (h2 : m ≤ 12) :
    1 ≤ nextM m ∧ nextM m ≤ 12 := by
  unfold nextM; split_ifs <;> omega

theorem toDays_day_shift (y m a b : ℤ) :
    toDays ⟨y, m, a⟩ = toDays ⟨y, m, b⟩ + (a - b) := by
  simp only [toDays]; ring

theorem toDays_addMonthJS (t : CivilDate) (h : ValidDate t) :
    toDays (addMonthJS t) = toDays t + daysInMonth t.y t.m := by
  obtain ⟨Y, M, D⟩ := t
  obtain ⟨hm1, hm2, hd1, hd2⟩ := h
  unfold addMonthJS mkDateJS
  dsimp only at *
  split_ifs with hov
  · exact toDays_nextYM Y M D hm1 hm2
  · have hnm := nextM_bounds M hm1 hm2
    have h2 := toDays_nextYM (nextY Y M) (nextM M)
      (D - daysInMonth (nextY Y M) (nextM M)) hnm.1 hnm.2
    have h3 := toDays_day_shift (nextY Y M) (nextM M)
      (D - daysInMonth (nextY Y M) (nextM M)) D
    have h4 := toDays_nextYM Y M D hm1 hm2
    omega

theorem valid_addMonthJS (t : CivilDate) (h : ValidDate t) :
    ValidDate (addMonthJS t) := by
  obtain ⟨Y, M, D⟩ := t
  obtain ⟨hm1, hm2, hd1, hd2⟩ := h
  have hnm := nextM_bounds M hm1 hm2
  have hb1 := daysInMonth_bounds (nextY Y M) (nextM M)
  have hb0 := daysInMonth_bounds Y M
  have hnm2 := nextM_bounds (nextM M) hnm.1 hnm.2
  have hb2 := daysInMonth_bounds (nextY (nextY Y M) (nextM M)) (nextM (nextM M))
  unfold addMonthJS mkDateJS ValidDate
  dsimp only at *
  split_ifs with hov
  · exact ⟨hnm.1, hnm.2, hd1, hov⟩
  · refine ⟨?_, ?_, ?_, ?_⟩ <;> dsimp only <;> omega

theorem toDays_subDayJS (t : CivilDate) (h : ValidDate t) :
    toDays (subDayJS t) = toDays t - 1 := by
  obtain ⟨Y, M, D⟩ := t
  obtain ⟨hm1, hm2, hd1, hd2⟩ := h
  unfold subDayJS
  dsimp only at *
  split_ifs with hgt hjan
  · have h3 := toDays_day_shift Y M (D - 1) D
    omega
  · -- January 1st: the previous day is December 31 of the previous year.
    have hd : D = 1 := by omega
    have h31 : daysInMonth (Y - 1) 12 = 31 := by
      unfold daysInMonth daysInMonthNL; norm_num
    have h2 := toDays_nextYM (Y - 1) 12 31 (by omega) (by omega)
    have hny : nextY (Y - 1) 12 = Y := by unfold nextY; norm_num
    have hnm : nextM 12 = 1 := by unfold nextM; norm_num
    rw [hny, hnm] at h2
    have h3 := toDays_day_shift Y 1 31 1
    subst hd hjan
    rw [h31]
    omega
  · -- First of a month other than January.
    have hd : D = 1 := by omega
    have hm1' : 1 ≤ M - 1 := by omega
    have h2 := toDays_nextYM Y (M - 1) 1 hm1' (by omega)
    have hny : nextY Y (M - 1) = Y := by unfold nextY; split_ifs <;> omega
    have hnm : nextM (M - 1) = M := by unfold nextM; split_ifs <;> omega
    rw [hny, hnm] at h2
    have h3 := toDays_day_shift Y (M - 1) (daysInMonth Y (M - 1)) 1
    subst hd
    omega

theorem valid_subDayJS (t : CivilDate) (h : ValidDate t) :
    ValidDate (subDayJS t) := by
  obtain ⟨Y, M, D⟩ := t
  obtain ⟨hm1, hm2, hd1, hd2⟩ := h
  have hb0 := daysInMonth_bounds Y M
  unfold subDayJS ValidDate
  dsimp only at *
  split_ifs with hgt hjan
  · refine ⟨?_, ?_, ?_, ?_⟩ <;> dsimp only <;> omega
  · have hb := daysInMonth_bounds (Y - 1) 12
    refine ⟨?_, ?_, ?_, ?_⟩ <;> dsimp only <;> omega
  · have hb := daysInMonth_bounds Y (M - 1)
    refine ⟨?_, ?_, ?_, ?_⟩ <;> dsimp only <;> omega

theorem periodLoop_final_le (f : Nat) (c : CivilDate) (e : ℤ) (h : toDays c ≤ e) :
    toDays (periodLoop f c e).2 ≤ e := by
  induction f generalizing c with
  | zero => exact h
  | succ f ih =>
    unfold periodLoop
    split_ifs with h1 h2
    · exact ih (addMonthJS c) h2
    · exact h
    · exact h

theorem periodLoop_fullMonths_nonneg (f : Nat) (c : CivilDate) (e : ℤ) :
    0 ≤ (periodLoop f c e).1 := by
  induction f generalizing c with
  | zero => exact le_refl 0
  | succ f ih =>
    unfold periodLoop
    split_ifs with h1 h2
    · have := ih (addMonthJS c)
      dsimp only
      omega
    · exact le_refl 0
    · exact le_refl 0

theorem periodLoop_final_valid (f : Nat) (c : CivilDate) (e : ℤ) (h : ValidDate c) :
    ValidDate (periodLoop f c e).2 := by
  induction f generalizing c with
  | zero => exact h
  | succ f ih =>
    unfold periodLoop
    split_ifs with h1 h2
    · exact ih (addMonthJS c) (valid_addMonthJS c h)
    · exact h
    · exact h

theorem valid_scheduleStep (t : CivilDate) (h : ValidDate t) :
    ValidDate (scheduleStep t) :=
  valid_subDayJS _ (valid_addMonthJS t h)

theorem toDays_scheduleStep (t : CivilDate) (h : ValidDate t) :
    toDays (scheduleStep t) = toDays t + daysInMonth t.y t.m - 1 := by
  unfold scheduleStep
  rw [toDays_subDayJS _ (valid_addMonthJS t h), toDays_addMonthJS t h]

theorem toDays_scheduleStep_bounds (t : CivilDate) (h : ValidDate t) :
    27 ≤ toDays (scheduleStep t) - toDays t ∧ toDays (scheduleStep t) - toDays t ≤ 30 := by
  rw [toDays_scheduleStep t h]
  have := daysInMonth_bounds t.y t.m
  omega

theorem scheduleLoop_mem (f : Nat) (c : CivilDate) (endD predD nowD : ℤ)
    (x : CivilDate) (hx : x ∈ scheduleLoop f c endD predD nowD) :
    nowD ≤ toDays x ∧ toDays x ≤ endD ∧ toDays x ≤ predD := by
  induction f generalizing c with
  | zero => simp [scheduleLoop] at hx
  | succ f ih =>
    unfold scheduleLoop at hx
    split_ifs at hx with h1 h2
    · rcases List.mem_append.mp hx with hl | hr
      · rcases List.mem_singleton.mp hl with rfl
        exact ⟨h2, h1.1, h1.2⟩
      · exact ih (scheduleStep c) hr
    · simp only [List.nil_append] at hx
      exact ih (scheduleStep c) hx
    · simp at hx

theorem scheduleLoop_head_eq (f : Nat) (c : CivilDate) (endD predD nowD : ℤ)
    (h : nowD ≤ toDays c) :
    scheduleLoop f c endD predD nowD = [] ∨
      ∃ l, scheduleLoop f c endD predD nowD = c :: l := by
  cases f with
  | zero => exact Or.inl rfl
  | succ f =>
    unfold scheduleLoop
    rcases Classical.em (toDays c ≤ endD ∧ toDays c ≤ predD) with h1 | h1
    · rw [if_pos h1, if_pos h]
      exact Or.inr ⟨_, rfl⟩
    · rw [if_neg h1]
      exact Or.inl rfl

theorem scheduleLoop_chain (f : Nat) (c : CivilDate) (endD predD nowD : ℤ)
    (hv : ValidDate c) :
    List.Chain' (fun a b => 27 ≤ toDays b - toDays a ∧ toDays b - toDays a ≤ 31)
      (scheduleLoop f c endD predD nowD) := by
  induction f generalizing c with
  | zero => simp [scheduleLoop]
  | succ f ih =>
    unfold scheduleLoop
    split_ifs with h1 h2
    · rw [List.singleton_append]
      rw [List.chain'_cons']
      refine ⟨?_, ih (scheduleStep c) (valid_scheduleStep c hv)⟩
      intro h hh
      have hstep := toDays_scheduleStep_bounds c hv
      have hnow : nowD ≤ toDays (scheduleStep c) := by omega
      rcases scheduleLoop_head_eq f (scheduleStep c) endD predD nowD hnow with he | ⟨l, he⟩
      · rw [he] at hh; simp at hh
      · rw [he] at hh
        simp only [List.head?_cons, Option.mem_def, Option.some.injEq] at hh
        subst hh
        omega
    · simp only [List.nil_append]
      exact ih (scheduleStep c) (valid_scheduleStep c hv)
    · simp

/-! ## Unfolding lemmas -/

theorem periodLoop_succ (f : Nat) (c : CivilDate) (e : ℤ) :
    periodLoop (f + 1) c e =
      if toDays c < e then
        if toDays (addMonthJS c) ≤ e then
          ((periodLoop f (addMonthJS c) e).1 + 1, (periodLoop f (addMonthJS c) e).2)
        else (0, c)
      else (0, c) := rfl

theorem calculateContractPeriod_fullMonths (s e : CivilDate) :
    (calculateContractPeriod s e).fullMonths =
      (periodLoop ((toDays e - toDays s).toNat + 1) s (toDays e)).1 := rfl

theorem calculateContractPeriod_remainingDays (s e : CivilDate) :
    (calculateContractPeriod s e).remainingDays =
      toDays e - toDays (periodLoop ((toDays e - toDays s).toNat + 1) s (toDays e)).2 := rfl

theorem calculateContractPeriod_daysInLastMonth (s e : CivilDate) :
    (calculateContractPeriod s e).daysInLastMonth =
      daysInMonth (periodLoop ((toDays e - toDays s).toNat + 1) s (toDays e)).2.y
        (periodLoop ((toDays e - toDays s).toNat + 1) s (toDays e)).2.m := rfl

theorem calculateContractPeriod_totalDays (s e : CivilDate) :
    (calculateContractPeriod s e).totalDays = toDays e - toDays s := rfl

theorem calculateUpfrontInterest_full (A r : ℚ) (s e : CivilDate) :
    (calculateUpfrontInterest A r s e).fullMonthsInterest =
      r / 12 * ((calculateContractPeriod s e).fullMonths : ℚ) * A := rfl

theorem calculateUpfrontInterest_partialMonth (A r : ℚ) (s e : CivilDate) :
    (calculateUpfrontInterest A r s e).partialMonthInterest =
      if 0 < (calculateContractPeriod s e).remainingDays then
        r / 12 / ((calculateContractPeriod s e).daysInLastMonth : ℚ) *
          ((calculateContractPeriod s e).remainingDays : ℚ) * A
      else 0 := rfl

theorem calculateUpfrontInterest_total (A r : ℚ) (s e : CivilDate) :
    (calculateUpfrontInterest A r s e).totalInterest =
      (calculateUpfrontInterest A r s e).fullMonthsInterest +
        (calculateUpfrontInterest A r s e).partialMonthInterest := rfl

theorem calculateUpfrontInterest_period (A r : ℚ) (s e : CivilDate) :
    (calculateUpfrontInterest A r s e).period = calculateContractPeriod s e := rfl

theorem getUpfrontInterestStatus_eq (expected actual : ℚ) (s : CivilDate)
    (p : Option ℤ) (r x now : CivilDate) :
    getUpfrontInterestStatus expected actual s p r x now =
      if toDays now < toDays s then "pending"
      else if actual = 0 then "overdue"
      else if expected - expected * (1 / 100) ≤ actual then "paid"
      else "partial" := by
  unfold getUpfrontInterestStatus getUpfrontInterestStatusFull
  split_ifs <;> rfl

/-! ## Claim C1 — month-end behaviour of the period month-walk -/

/-- C1, counterexample: for start = 2024-01-31, end = 2024-03-01 the source
returns fullMonths = 0 and remainingDays = 30, not the claimed
fullMonths = 1, remainingDays = 1. -/
theorem C1_counterexample :
    (calculateContractPeriod ⟨2024, 1, 31⟩ ⟨2024, 3, 1⟩).fullMonths = 0 ∧
    (calculateContractPeriod ⟨2024, 1, 31⟩ ⟨2024, 3, 1⟩).remainingDays = 30 ∧
    ¬((calculateContractPeriod ⟨2024, 1, 31⟩ ⟨2024, 3, 1⟩).fullMonths = 1 ∧
      (calculateContractPeriod ⟨2024, 1, 31⟩ ⟨2024, 3, 1⟩).remainingDays = 1) := by
  refine ⟨by decide, by decide, ?_⟩
  intro h
  exact absurd h.1 (by decide)

/-- C1, amended: the month-walk of `calculateContractPeriod` does not clamp
to the last valid day — JavaScript `setMonth` rolls the overflowing day into
the following month.  Jan 31 + 1 month normalises to Mar 2 (2024 is a leap
year), which exceeds end = 2024-03-01, so for start = 2024-01-31,
end = 2024-03-01 the walk counts no full month: fullMonths = 0,
remainingDays = 30 (residual from Jan 31 to Mar 1), daysInLastMonth = 31
(January), totalDays = 30. -/
theorem C1_month_walk_rolls_over :
    addMonthJS ⟨2024, 1, 31⟩ = ⟨2024, 3, 2⟩ ∧
    calculateContractPeriod ⟨2024, 1, 31⟩ ⟨2024, 3, 1⟩ =
      { fullMonths := 0, remainingDays := 30, daysInLastMonth := 31, totalDays := 30 } := by
  exact ⟨by decide, by decide⟩

/-! ## Claim C3 — shape invariant of `ContractPeriod` -/

/-- C3, counterexample: for start = 2024-01-02 > end = 2024-01-01 the record
has remainingDays = −1 and totalDays = −1, refuting non-negativity "for
every pair of input dates (including start >= end)". -/
theorem C3_counterexample :
    (calculateContractPeriod ⟨2024, 1, 2⟩ ⟨2024, 1, 1⟩).remainingDays < 0 ∧
    (calculateContractPeriod ⟨2024, 1, 2⟩ ⟨2024, 1, 1⟩).totalDays < 0 := by
  exact ⟨by decide, by decide⟩

/-- C3, amended: whenever start ≤ end (as timestamps), the record returned
by `calculateContractPeriod` has non-negative fullMonths, remainingDays and
totalDays, and daysInLastMonth in [28, 31]; for start > end the day counts
go negative instead. -/
theorem C3_shape_invariant (s e : CivilDate) (h : toDays s ≤ toDays e) :
    0 ≤ (calculateContractPeriod s e).fullMonths ∧
    0 ≤ (calculateContractPeriod s e).remainingDays ∧
    0 ≤ (calculateContractPeriod s e).totalDays ∧
    28 ≤ (calculateContractPeriod s e).daysInLastMonth ∧
    (calculateContractPeriod s e).daysInLastMonth ≤ 31 := by
  refine ⟨?_, ?_, ?_, ?_, ?_⟩
  · rw [calculateContractPeriod_fullMonths]
    exact periodLoop_fullMonths_nonneg _ s (toDays e)
  · rw [calculateContractPeriod_remainingDays]
    have := periodLoop_final_le ((toDays e - toDays s).toNat + 1) s (toDays e) h
    omega
  · rw [calculateContractPeriod_totalDays]; omega
  · rw [calculateContractPeriod_daysInLastMonth]
    exact (daysInMonth_bounds _ _).1
  · rw [calculateContractPeriod_daysInLastMonth]
    exact (daysInMonth_bounds _ _).2

/-- C3, witness at start = 2024-01-15, end = 2024-04-20. -/
theorem C3_shape_invariant_witness :
    toDays ⟨2024, 1, 15⟩ ≤ toDays ⟨2024, 4, 20⟩ ∧
    (0 ≤ (calculateContractPeriod ⟨2024, 1, 15⟩ ⟨2024, 4, 20⟩).fullMonths ∧
     0 ≤ (calculateContractPeriod ⟨2024, 1, 15⟩ ⟨2024, 4, 20⟩).remainingDays ∧
     0 ≤ (calculateContractPeriod ⟨2024, 1, 15⟩ ⟨2024, 4, 20⟩).totalDays ∧
     28 ≤ (calculateContractPeriod ⟨2024, 1, 15⟩ ⟨2024, 4, 20⟩).daysInLastMonth ∧
     (calculateContractPeriod ⟨2024, 1, 15⟩ ⟨2024, 4, 20⟩).daysInLastMonth ≤ 31) :=
  ⟨by decide, C3_shape_invariant ⟨2024, 1, 15⟩ ⟨2024, 4, 20⟩ (by decide)⟩

/-! ## Claim C9 — degenerate period yields zero interest -/

/-- C9: for every principal and rate, if end ≤ start then
`calculateUpfrontInterest` returns zero full-months, partial-month and total
interest, with the period's fullMonths = 0. -/
theorem C9_degenerate_period_zero (principal rate : ℚ) (s e : CivilDate)
    (h : toDays e ≤ toDays s) :
    (calculateUpfrontInterest principal rate s e).fullMonthsInterest = 0 ∧
    (calculateUpfrontInterest principal rate s e).partialMonthInterest = 0 ∧
    (calculateUpfrontInterest principal rate s e).totalInterest = 0 ∧
    (calculateUpfrontInterest principal rate s e).period.fullMonths = 0 := by
  have hloop : periodLoop ((toDays e - toDays s).toNat + 1) s (toDays e) = (0, s) := by
    rw [periodLoop_succ, if_neg (by omega)]
  have hfm : (calculateContractPeriod s e).fullMonths = 0 := by
    rw [calculateContractPeriod_fullMonths, hloop]
  have hrem : (calculateContractPeriod s e).remainingDays = toDays e - toDays s := by
    rw [calculateContractPeriod_remainingDays, hloop]
  have hfull : (calculateUpfrontInterest principal rate s e).fullMonthsInterest = 0 := by
    rw [calculateUpfrontInterest_full, hfm]
    simp
  have hpart : (calculateUpfrontInterest principal rate s e).partialMonthInterest = 0 := by
    rw [calculateUpfrontInterest_partialMonth, if_neg (by omega)]
  refine ⟨hfull, hpart, ?_, ?_⟩
  · rw [calculateUpfrontInterest_total, hfull, hpart]; norm_num
  · rw [calculateUpfrontInterest_period]; exact hfm

/-- C9, witness at principal = 50000, rate = 0.12, start = end = 2024-05-01. -/
theorem C9_degenerate_period_zero_witness :
    toDays ⟨2024, 5, 1⟩ ≤ toDays ⟨2024, 5, 1⟩ ∧
    ((calculateUpfrontInterest 50000 (12 / 100) ⟨2024, 5, 1⟩ ⟨2024, 5, 1⟩).fullMonthsInterest = 0 ∧
     (calculateUpfrontInterest 50000 (12 / 100) ⟨2024, 5, 1⟩ ⟨2024, 5, 1⟩).partialMonthInterest = 0 ∧
     (calculateUpfrontInterest 50000 (12 / 100) ⟨2024, 5, 1⟩ ⟨2024, 5, 1⟩).totalInterest = 0 ∧
     (calculateUpfrontInterest 50000 (12 / 100) ⟨2024, 5, 1⟩ ⟨2024, 5, 1⟩).period.fullMonths = 0) :=
  ⟨by decide, C9_degenerate_period_zero 50000 (12 / 100) ⟨2024, 5, 1⟩ ⟨2024, 5, 1⟩ (by decide)⟩

/-! ## Claim C5 — upfront interest additivity and non-negativity -/

/-- C5: for principal ≥ 0, rate ≥ 0 and start < end, `totalInterest` is
exactly `fullMonthsInterest + partialMonthInterest` (no internal rounding),
and both components are non-negative. -/
theorem C5_additivity_nonneg (principal rate : ℚ) (s e : CivilDate)
    (hp : 0 ≤ principal) (hr : 0 ≤ rate) (hse : toDays s < toDays e) :
    (calculateUpfrontInterest principal rate s e).totalInterest =
      (calculateUpfrontInterest principal rate s e).fullMonthsInterest +
        (calculateUpfrontInterest principal rate s e).partialMonthInterest ∧
    0 ≤ (calculateUpfrontInterest principal rate s e).fullMonthsInterest ∧
    0 ≤ (calculateUpfrontInterest principal rate s e).partialMonthInterest := by
  refine ⟨calculateUpfrontInterest_total principal rate s e, ?_, ?_⟩
  · rw [calculateUpfrontInterest_full]
    have hm : (0 : ℤ) ≤ (calculateContractPeriod s e).fullMonths := by
      rw [calculateContractPeriod_fullMonths]
      exact periodLoop_fullMonths_nonneg _ s (toDays e)
    have hm' : (0 : ℚ) ≤ ((calculateContractPeriod s e).fullMonths : ℚ) := by
      exact_mod_cast hm
    exact mul_nonneg (mul_nonneg (by positivity) hm') hp
  · rw [calculateUpfrontInterest_partialMonth]
    split_ifs with hrem
    · have hd := daysInMonth_bounds
        (periodLoop ((toDays e - toDays s).toNat + 1) s (toDays e)).2.y
        (periodLoop ((toDays e - toDays s).toNat + 1) s (toDays e)).2.m
      have hd' : (0 : ℤ) ≤ (calculateContractPeriod s e).daysInLastMonth := by
        rw [calculateContractPeriod_daysInLastMonth]; omega
      have h1 : (0 : ℚ) ≤ ((calculateContractPeriod s e).daysInLastMonth : ℚ) := by
        exact_mod_cast hd'
      have h2 : (0 : ℚ) ≤ ((calculateContractPeriod s e).remainingDays : ℚ) := by
        exact_mod_cast le_of_lt hrem
      exact mul_nonneg (mul_nonneg (div_nonneg (by positivity) h1) h2) hp
    · exact le_refl 0

/-- C5, witness at principal = 1200, rate = 0.12, start = 2024-01-15,
end = 2024-04-20 (3 full months + 5 days of April). -/
theorem C5_additivity_nonneg_witness :
    (0 : ℚ) ≤ 1200 ∧ (0 : ℚ) ≤ 12 / 100 ∧
    toDays ⟨2024, 1, 15⟩ < toDays ⟨2024, 4, 20⟩ ∧
    ((calculateUpfrontInterest 1200 (12 / 100) ⟨2024, 1, 15⟩ ⟨2024, 4, 20⟩).totalInterest =
      (calculateUpfrontInterest 1200 (12 / 100) ⟨2024, 1, 15⟩ ⟨2024, 4, 20⟩).fullMonthsInterest +
        (calculateUpfrontInterest 1200 (12 / 100) ⟨2024, 1, 15⟩ ⟨2024, 4, 20⟩).partialMonthInterest ∧
     0 ≤ (calculateUpfrontInterest 1200 (12 / 100) ⟨2024, 1, 15⟩ ⟨2024, 4, 20⟩).fullMonthsInterest ∧
     0 ≤ (calculateUpfrontInterest 1200 (12 / 100) ⟨2024, 1, 15⟩ ⟨2024, 4, 20⟩).partialMonthInterest) :=
  ⟨by norm_num, by norm_num, by decide,
    C5_additivity_nonneg 1200 (12 / 100) ⟨2024, 1, 15⟩ ⟨2024, 4, 20⟩
      (by norm_num) (by norm_num) (by decide)⟩

/-! ## Claim C4 — interest payment status classification -/

/-- C4: for every expected ≥ 0, the status is "pending" iff now < start;
otherwise "overdue" iff the paid amount is zero; otherwise "paid" iff
paid ≥ expected − 0.01·expected and "partial" otherwise.  In particular
expected = 10000, paid = 9900 classifies "paid" and paid = 9899.99
classifies "partial". -/
theorem C4_status_classification :
    (∀ (expected actual : ℚ) (s now : CivilDate) (p : Option ℤ) (r x : CivilDate),
      0 ≤ expected →
      (getUpfrontInterestStatus expected actual s p r x now = "pending" ↔
        toDays now < toDays s) ∧
      (toDays s ≤ toDays now →
        (getUpfrontInterestStatus expected actual s p r x now = "overdue" ↔ actual = 0) ∧
        (actual ≠ 0 →
          (getUpfrontInterestStatus expected actual s p r x now = "paid" ↔
            expected - expected * (1 / 100) ≤ actual) ∧
          (getUpfrontInterestStatus expected actual s p r x now = "partial" ↔
            actual < expected - expected * (1 / 100))))) ∧
    getUpfrontInterestStatus 10000 9900 ⟨2024, 1, 1⟩ none ⟨2024, 6, 1⟩ ⟨2024, 7, 1⟩
      ⟨2024, 3, 1⟩ = "paid" ∧
    getUpfrontInterestStatus 10000 (989999 / 100) ⟨2024, 1, 1⟩ none ⟨2024, 6, 1⟩ ⟨2024, 7, 1⟩
      ⟨2024, 3, 1⟩ = "partial" := by
  refine ⟨?_, ?_, ?_⟩
  · intro expected actual s now p r x he
    rw [getUpfrontInterestStatus_eq]
    by_cases h1 : toDays now < toDays s
    · rw [if_pos h1]
      exact ⟨by simp [h1], fun h => absurd h1 (by omega)⟩
    · rw [if_neg h1]
      refine ⟨?_, fun _ => ⟨?_, fun ha => ⟨?_, ?_⟩⟩⟩
      · constructor
        · intro hcontr
          by_cases h2 : actual = 0
          · exact absurd hcontr (by rw [if_pos h2]; decide)
          · rw [if_neg h2] at hcontr
            split_ifs at hcontr <;> exact absurd hcontr (by decide)
        · intro hlt; exact absurd hlt h1
      · constructor
        · intro hcontr
          by_cases h2 : actual = 0
          · exact h2
          · rw [if_neg h2] at hcontr
            split_ifs at hcontr <;> exact absurd hcontr (by decide)
        · intro h2; rw [if_pos h2]
      · rw [if_neg ha]
        constructor
        · intro hcontr
          by_cases h3 : expected - expected * (1 / 100) ≤ actual
          · exact h3
          · rw [if_neg h3] at hcontr
            exact absurd hcontr (by decide)
        · intro h3; rw [if_pos h3]
      · rw [if_neg ha]
        constructor
        · intro hcontr
          by_cases h3 : expected - expected * (1 / 100) ≤ actual
          · rw [if_pos h3] at hcontr
            exact absurd hcontr (by decide)
          · exact lt_of_not_le h3
        · intro h3
          rw [if_neg (not_le.mpr h3)]
  · rw [getUpfrontInterestStatus_eq]
    norm_num [toDays, daysBeforeYear, cumDays, isLeap]
  · rw [getUpfrontInterestStatus_eq]
    norm_num [toDays, daysBeforeYear, cumDays, isLeap]

/-- C4, witness: a started contract with zero payment classifies "overdue". -/
theorem C4_status_classification_witness :
    (0 : ℚ) ≤ 10000 ∧ toDays (⟨2024, 1, 1⟩ : CivilDate) ≤ toDays ⟨2024, 3, 1⟩ ∧
    (getUpfrontInterestStatus 10000 0 ⟨2024, 1, 1⟩ none ⟨2024, 6, 1⟩ ⟨2024, 7, 1⟩
      ⟨2024, 3, 1⟩ = "overdue" ↔ (0 : ℚ) = 0) :=
  ⟨by norm_num, by decide,
    ((C4_status_classification.1 10000 0 ⟨2024, 1, 1⟩ ⟨2024, 3, 1⟩ none ⟨2024, 6, 1⟩
      ⟨2024, 7, 1⟩ (by norm_num)).2 (by decide)).1⟩

/-! ## Claim C10 — status noninterference and range -/

/-- C10: the returned status depends only on the expected amount, the paid
amount, the contract start and the current date — `projectId`,
`repaymentDate` and `expiryDate` (which feed only diagnostic logging) never
change it — and the status is always one of "pending", "overdue", "paid",
"partial". -/
theorem C10_status_noninterference :
    (∀ (expected actual : ℚ) (s now : CivilDate) (p₁ p₂ : Option ℤ)
      (r₁ r₂ x₁ x₂ : CivilDate),
      getUpfrontInterestStatus expected actual s p₁ r₁ x₁ now =
        getUpfrontInterestStatus expected actual s p₂ r₂ x₂ now) ∧
    (∀ (expected actual : ℚ) (s now : CivilDate) (p : Option ℤ) (r x : CivilDate),
      getUpfrontInterestStatus expected actual s p r x now = "pending" ∨
      getUpfrontInterestStatus expected actual s p r x now = "overdue" ∨
      getUpfrontInterestStatus expected actual s p r x now = "paid" ∨
      getUpfrontInterestStatus expected actual s p r x now = "partial") := by
  constructor
  · intro expected actual s now p₁ p₂ r₁ r₂ x₁ x₂
    rw [getUpfrontInterestStatus_eq, getUpfrontInterestStatus_eq]
  · intro expected actual s now p r x
    rw [getUpfrontInterestStatus_eq]
    split_ifs <;> simp

/-! ## Claim C6 — payment schedule monotonicity and bounds -/

/-- C6: for every valid anchor date, end date, horizon end, prior-payment
flag and current date, consecutive dates emitted by
`generatePaymentSchedule` are strictly increasing with gaps between 27 and
31 days, and every emitted date lies within
[now, min(endDate, horizonEnd)]. -/
theorem C6_schedule_monotone_bounded (base endDate predictionEndDate now : CivilDate)
    (hasLastPayment : Bool) (hv : ValidDate base) :
    List.Chain' (fun a b => 27 ≤ toDays b - toDays a ∧ toDays b - toDays a ≤ 31)
      (generatePaymentSchedule base endDate predictionEndDate hasLastPayment now) ∧
    ∀ x ∈ generatePaymentSchedule base endDate predictionEndDate hasLastPayment now,
      toDays now ≤ toDays x ∧
      toDays x ≤ min (toDays endDate) (toDays predictionEndDate) := by
  unfold generatePaymentSchedule
  have hv0 : ValidDate (if hasLastPayment then scheduleStep base else base) := by
    cases hasLastPayment
    · exact hv
    · exact valid_scheduleStep base hv
  constructor
  · exact scheduleLoop_chain _ _ _ _ _ hv0
  · intro x hx
    have := scheduleLoop_mem _ _ _ _ _ x hx
    exact ⟨this.1, le_min this.2.1 this.2.2⟩

/-- C6, witness: anchor 2024-01-15, end 2024-06-30, horizon 2024-12-31,
no prior payment, now 2024-01-01. -/
theorem C6_schedule_monotone_bounded_witness :
    ValidDate ⟨2024, 1, 15⟩ ∧
    (List.Chain' (fun a b => 27 ≤ toDays b - toDays a ∧ toDays b - toDays a ≤ 31)
      (generatePaymentSchedule ⟨2024, 1, 15⟩ ⟨2024, 6, 30⟩ ⟨2024, 12, 31⟩ false ⟨2024, 1, 1⟩) ∧
    ∀ x ∈ generatePaymentSchedule ⟨2024, 1, 15⟩ ⟨2024, 6, 30⟩ ⟨2024, 12, 31⟩ false ⟨2024, 1, 1⟩,
      toDays ⟨2024, 1, 1⟩ ≤ toDays x ∧
      toDays x ≤ min (toDays ⟨2024, 6, 30⟩) (toDays ⟨2024, 12, 31⟩)) :=
  ⟨by decide,
    C6_schedule_monotone_bounded ⟨2024, 1, 15⟩ ⟨2024, 6, 30⟩ ⟨2024, 12, 31⟩ ⟨2024, 1, 1⟩
      false (by decide)⟩

/-! ## Claim C2 — final-month proration in the monthly projection -/

/-- C2, counterexample: principal = 100000, annualRate = 0.12, loan ending
2024-04-10 (day 10 of 30-day April), schedule hit in the month: the
prorated, 2-decimal-rounded amount is 300.00, not the claimed 333.33. -/
theorem C2_counterexample :
    jsRound2 (monthlyGrossInterest 100000 (12 / 100 / 12) ⟨2024, 4, 10⟩ ⟨2024, 4, 1⟩
      ⟨2024, 4, 30⟩ [⟨2024, 4, 14⟩]) = 300 ∧
    jsRound2 (monthlyGrossInterest 100000 (12 / 100 / 12) ⟨2024, 4, 10⟩ ⟨2024, 4, 1⟩
      ⟨2024, 4, 30⟩ [⟨2024, 4, 14⟩]) ≠ 33333 / 100 := by
  constructor <;>
    norm_num [jsRound2, jsRound, monthlyGrossInterest, toDays, daysBeforeYear,
      cumDays, isLeap, daysInMonth, daysInMonthNL, List.find?]

/-- C2, amended: `actualDays = min(ceil((loanEnd − monthStart)/1 day),
daysInMonth)` is 9 for a loan ending on day 10 — midnight of the 10th minus
midnight of the 1st is 9 whole days — so the prorated amount is
100000 · ((0.12/12)/30) · 9 = 300.00 after rounding, which still differs
from the full 1000 monthly figure. -/
theorem C2_final_month_proration :
    toDays ⟨2024, 4, 10⟩ - toDays ⟨2024, 4, 1⟩ = 9 ∧
    monthlyGrossInterest 100000 (12 / 100 / 12) ⟨2024, 4, 10⟩ ⟨2024, 4, 1⟩
      ⟨2024, 4, 30⟩ [⟨2024, 4, 14⟩] = 100000 * ((12 / 100 / 12) / 30) * 9 ∧
    jsRound2 (monthlyGrossInterest 100000 (12 / 100 / 12) ⟨2024, 4, 10⟩ ⟨2024, 4, 1⟩
      ⟨2024, 4, 30⟩ [⟨2024, 4, 14⟩]) = 300 ∧
    monthlyGrossInterest 100000 (12 / 100 / 12) ⟨2024, 4, 10⟩ ⟨2024, 4, 1⟩
      ⟨2024, 4, 30⟩ [⟨2024, 4, 14⟩] ≠ 100000 * (12 / 100 / 12) := by
  refine ⟨by decide, ?_, ?_, ?_⟩ <;>
    norm_num [jsRound2, jsRound, monthlyGrossInterest, toDays, daysBeforeYear,
      cumDays, isLeap, daysInMonth, daysInMonthNL, List.find?]

/-! ## Claim C7 — Goodland-investor exclusion -/

/-- C7: an investor funding active in the month whose display name contains
"goodland" case-insensitively contributes nothing to the month's
`totalInvestorPayouts` (removing it from the input list leaves the total
unchanged), while its computed monthly payment still appears in the
itemized `investorPayouts` list with both exclusion flags set. -/
theorem C7_goodland_exclusion (pre post : List InvestorFunding) (inv : InvestorFunding)
    (monthStart monthEnd : CivilDate)
    (hact : toDays inv.investor_start_date ≤ toDays monthEnd ∧
      toDays monthStart ≤ toDays inv.investor_end_date)
    (hg : isGoodlandName (investorDisplayName inv) = true) :
    (processInvestorPayouts (pre ++ inv :: post) monthStart monthEnd).1 =
      (processInvestorPayouts (pre ++ post) monthStart monthEnd).1 ∧
    { investorId := inv.investor_id
      investorName := investorDisplayName inv
      stageId := inv.stage_id
      amount := investorMonthlyPayment inv
      isGoodlandInvestor := true
      excludedFromOutflows := true } ∈
      (processInvestorPayouts (pre ++ inv :: post) monthStart monthEnd).2 := by
  induction pre with
  | nil =>
    simp only [List.nil_append, processInvestorPayouts, if_pos hact, hg, ite_true]
    exact ⟨zero_add _, List.mem_cons_self _ _⟩
  | cons a pre ih =>
    simp only [List.cons_append, processInvestorPayouts, List.append_eq]
    by_cases ha : toDays a.investor_start_date ≤ toDays monthEnd ∧
      toDays monthStart ≤ toDays a.investor_end_date
    · simp only [if_pos ha]
      exact ⟨by rw [ih.1], List.mem_cons_of_mem _ ih.2⟩
    · simp only [if_neg ha]
      exact ih

/-- C7, witness: "GoodLand Capital" active in March 2024 alongside an
ordinary investor. -/
theorem C7_goodland_exclusion_witness :
    (toDays (⟨2024, 1, 1⟩ : CivilDate) ≤ toDays ⟨2024, 3, 31⟩ ∧
      toDays (⟨2024, 3, 1⟩ : CivilDate) ≤ toDays ⟨2025, 1, 1⟩) ∧
    isGoodlandName (investorDisplayName
      ⟨1, 42, 12 / 100, 1000, ⟨2024, 1, 1⟩, ⟨2025, 1, 1⟩, some "GoodLand Capital"⟩) = true ∧
    ((processInvestorPayouts
        ([⟨1, 7, 12 / 100, 500, ⟨2024, 1, 1⟩, ⟨2025, 1, 1⟩, some "Acme Trust"⟩] ++
          (⟨1, 42, 12 / 100, 1000, ⟨2024, 1, 1⟩, ⟨2025, 1, 1⟩, some "GoodLand Capital"⟩ : InvestorFunding) :: [])
        ⟨2024, 3, 1⟩ ⟨2024, 3, 31⟩).1 =
      (processInvestorPayouts
        ([⟨1, 7, 12 / 100, 500, ⟨2024, 1, 1⟩, ⟨2025, 1, 1⟩, some "Acme Trust"⟩] ++ [])
        ⟨2024, 3, 1⟩ ⟨2024, 3, 31⟩).1 ∧
    { investorId := (42 : ℤ)
      investorName := investorDisplayName
        ⟨1, 42, 12 / 100, 1000, ⟨2024, 1, 1⟩, ⟨2025, 1, 1⟩, some "GoodLand Capital"⟩
      stageId := (1 : ℤ)
      amount := investorMonthlyPayment
        ⟨1, 42, 12 / 100, 1000, ⟨2024, 1, 1⟩, ⟨2025, 1, 1⟩, some "GoodLand Capital"⟩
      isGoodlandInvestor := true
      excludedFromOutflows := true } ∈
      (processInvestorPayouts
        ([⟨1, 7, 12 / 100, 500, ⟨2024, 1, 1⟩, ⟨2025, 1, 1⟩, some "Acme Trust"⟩] ++
          (⟨1, 42, 12 / 100, 1000, ⟨2024, 1, 1⟩, ⟨2025, 1, 1⟩, some "GoodLand Capital"⟩ : InvestorFunding) :: [])
        ⟨2024, 3, 1⟩ ⟨2024, 3, 31⟩).2) :=
  ⟨⟨by decide, by decide⟩, by decide,
    C7_goodland_exclusion
      [⟨1, 7, 12 / 100, 500, ⟨2024, 1, 1⟩, ⟨2025, 1, 1⟩, some "Acme Trust"⟩] []
      ⟨1, 42, 12 / 100, 1000, ⟨2024, 1, 1⟩, ⟨2025, 1, 1⟩, some "GoodLand Capital"⟩
      ⟨2024, 3, 1⟩ ⟨2024, 3, 31⟩ ⟨by decide, by decide⟩ (by decide)⟩

/-! ## Claim C8 — division-by-zero guard in the ratio decomposition -/

/-- C8, counterexample: a loan with zero gross but positive net paid to
date (the projector computes ratios exactly when net > 0) gets
`grossToNetRatio = net / 1 = net ≠ 0`, refuting "each yielding a ratio
of 0". -/
theorem C8_counterexample :
    (0 : ℚ) < 5 ∧ grossToNetRatio 5 0 = 5 ∧ grossToNetRatio 5 0 ≠ 0 := by
  norm_num [grossToNetRatio, jsOrOne]

/-- C8, amended: when the gross total is zero the three ratios are computed
with divisor 1 instead of 0 — so no division by zero occurs — and each
ratio equals its raw numerator; it is 0 exactly when that numerator is 0
(as it is for consistent ledger data, where zero gross forces zero net, tax
and fees). -/
theorem C8_div_by_zero_guard (actualPaidNet totalTaxPaid totalFeesPaid actualPaidGross : ℚ)
    (hg : actualPaidGross = 0) :
    jsOrOne actualPaidGross = 1 ∧
    grossToNetRatio actualPaidNet actualPaidGross = actualPaidNet ∧
    taxRatio totalTaxPaid actualPaidGross = totalTaxPaid ∧
    feeRatio totalFeesPaid actualPaidGross = totalFeesPaid ∧
    (actualPaidNet = 0 → grossToNetRatio actualPaidNet actualPaidGross = 0) ∧
    (totalTaxPaid = 0 → taxRatio totalTaxPaid actualPaidGross = 0) ∧
    (totalFeesPaid = 0 → feeRatio totalFeesPaid actualPaidGross = 0) := by
  subst hg
  have h1 : jsOrOne (0 : ℚ) = 1 := by norm_num [jsOrOne]
  refine ⟨h1, ?_, ?_, ?_, ?_, ?_, ?_⟩ <;>
    simp [grossToNetRatio, taxRatio, feeRatio, h1]

/-- C8, witness: the all-zero ledger. -/
theorem C8_div_by_zero_guard_witness :
    (0 : ℚ) = 0 ∧
    (jsOrOne (0 : ℚ) = 1 ∧
     grossToNetRatio 0 0 = 0 ∧ taxRatio 0 0 = 0 ∧ feeRatio 0 0 = 0 ∧
     ((0 : ℚ) = 0 → grossToNetRatio 0 0 = 0) ∧
     ((0 : ℚ) = 0 → taxRatio 0 0 = 0) ∧
     ((0 : ℚ) = 0 → feeRatio 0 0 = 0)) :=
  ⟨rfl, C8_div_by_zero_guard 0 0 0 0 rfl⟩

end GoodLand
